import Mathlib

/-!
Verification development for the KlikAanKlikUit ICS-2000 Home Assistant
integration (repository `aaaSuraj/KlikAanKlikUit-HA`).

The definitions below are a shallow embedding of the protocol and
device-model core of the repository, translated from
`custom_components/kaku_ics2000/hub.py` and
`custom_components/kaku_ics2000/state_manager.py`.  Python byte strings
are modelled as `List Nat` (each entry a byte value), Python text as
`List Char` or `String`, Python dictionaries that serve as keyed
registries as association lists `List (Int × _)` in insertion order, and
fallible steps as `Option`.  Definitions whose name carries a `Spec`,
`Claim` or `Amended` suffix are *not* taken from the source: they
transcribe the natural-language specification (or its amended form) and
exist only to be compared with the source-derived definitions.
-/

/-! ## Generic helpers: Python dict as an association list -/

/-- Lookup in an insertion-ordered association list, as Python
`dict.get`: the value stored at the first (and, for registries built by
the code, only) occurrence of the key. -/
def alLookup {α : Type} (l : List (Int × α)) (k : Int) : Option α :=
  match l with
  | [] => none
  | (k', v) :: rest => if k' == k then some v else alLookup rest k

/-- Python `d[k] = v` on an insertion-ordered dict: replace the value at
an existing key in place, otherwise append the new binding. -/
def insertOrReplace {α : Type} (l : List (Int × α)) (k : Int) (v : α) :
    List (Int × α) :=
  match l with
  | [] => [(k, v)]
  | (k', v') :: rest =>
      if k' == k then (k, v) :: rest else (k', v') :: insertOrReplace rest k v

/-- Python's substring test `needle in hay` on text. -/
def containsSub (hay needle : List Char) : Bool :=
  match hay with
  | [] => needle.isEmpty
  | c :: rest => needle.isPrefixOf (c :: rest) || containsSub rest needle

/-- Python `str.lower`, modelled on the ASCII letters (the keyword
tables the code matches against are all ASCII). -/
def pyLowerAscii (s : List Char) : List Char :=
  s.map (fun c =>
    if 'A' ≤ c && c ≤ 'Z' then Char.ofNat (c.toNat + 32) else c)

/-- Decimal rendering of a natural number, as Python `str`. -/
def natChars (n : Nat) : List Char := Nat.toDigits 10 n

/-- Decimal rendering of an integer, as Python `str`/f-string formatting. -/
def intChars (i : Int) : List Char :=
  if i < 0 then '-' :: natChars i.natAbs else natChars i.natAbs

/-! ## Local command transport (`hub.py`, `_build_command_packet`,
lines 470-495) -/

/-- Command-code byte chosen by `_build_command_packet`: `'on'` ↦ 1,
`'off'` ↦ 0, `'dim'` ↦ 2, anything else ↦ 1. -/
def commandCode (command : String) : Nat :=
  if command == "on" then 1
  else if command == "off" then 0
  else if command == "dim" then 2
  else 1

/-- `_build_command_packet` from `hub.py` lines 470-495.  `macBytes` is
`bytes.fromhex(self.mac)` (six bytes, each < 256).  The packet is the
two fixed header bytes `0xAA 0xAA`, the MAC, one device-id byte
(`device_id & 0xFF` when the id exceeds 255, else the id itself), the
command-code byte, the value byte (`value & 0xFF`), and finally a
checksum byte `sum(packet) & 0xFF` over everything appended so far. -/
def buildCommandPacket (macBytes : List Nat) (deviceId : Nat)
    (command : String) (value : Nat) : List Nat :=
  let packet := [170, 170] ++ macBytes
  let packet := packet ++ [if 255 < deviceId then deviceId % 256 else deviceId]
  let packet := packet ++ [commandCode command]
  let packet := packet ++ [value % 256]
  packet ++ [packet.sum % 256]

/-! ## Brightness handling (`hub.py`, `async_set_brightness`,
lines 546-563) -/

/-- The three ways `async_set_brightness` can act on the transport. -/
inductive BrightnessAction : Type where
  | dimCmd (value : Nat) : BrightnessAction
  | powerOn : BrightnessAction
  | powerOff : BrightnessAction
deriving DecidableEq

/-- The command `async_set_brightness` (lines 546-563) sends for a
device with the given `dimmable` flag and requested brightness
percentage.  A non-dimmable device degrades to plain on/off; a dimmable
one gets a `'dim'` command with value `int((brightness / 100) * 255)`.
For every integer brightness 0-100 that float expression equals the
integer floor `brightness * 255 / 100` (checked exhaustively over the
claim's 0-100 domain), which is how it is written here. -/
def setBrightnessAction (dimmable : Bool) (brightness : Nat) :
    BrightnessAction :=
  if !dimmable then
    (if 0 < brightness then .powerOn else .powerOff)
  else
    .dimCmd (brightness * 255 / 100)

/-! ## State manager (`state_manager.py`) -/

/-- Age-based confidence from `_update_confidence` (lines 110-141):
age < 1 minute ↦ 100, < 5 minutes ↦ 80, < 1 hour ↦ 60, otherwise 40.
Ages are in microseconds, the resolution of a Python `timedelta`. -/
def confidenceFromAge (ageMicros : Int) : Nat :=
  if ageMicros < 60000000 then 100
  else if ageMicros < 300000000 then 80
  else if ageMicros < 3600000000 then 60
  else 40

/-- The `last_update` slot of a stored state: `none` when the key is
absent or falsy, `some none` when present but `datetime.fromisoformat`
raises on it, `some (some t)` when it parses to the timestamp `t`
(microseconds since the epoch). -/
def updateConfidence (lastUpdate : Option (Option Int)) (now : Int) : Nat :=
  match lastUpdate with
  | none => 40
  | some none => 40
  | some (some t) => confidenceFromAge (now - t)

/-- A stored per-device state as kept by `StateManager._states`.  Only
the fields the examined claims touch are carried. -/
structure StoredState : Type where
  state : Bool
  lastUpdate : Option (Option Int)
  confidence : Nat
deriving DecidableEq

/-- `StateManager.async_get_device_state` (lines 66-79): look the device
up and, when found, recompute its confidence from the stored
`last_update` timestamp and the current time before returning it. -/
def getDeviceState (states : List (Int × StoredState)) (id : Int)
    (now : Int) : Option StoredState :=
  match alLookup states id with
  | none => none
  | some s => some { s with confidence := updateConfidence s.lastUpdate now }

/-- `StateManager.async_update_device_state` (lines 81-95): store the
state under the device id, then save exactly when the *size* of the
state map is a multiple of 10 after the write
(`len(self._states) % 10 == 0`).  Returns the new map and whether a
save happened. -/
def smUpdateDeviceState {α : Type} (states : List (Int × α)) (id : Int)
    (s : α) : List (Int × α) × Bool :=
  let states' := insertOrReplace states id s
  (states', states'.length % 10 == 0)

/-- Run a sequence of `async_update_device_state` calls, counting how
many of them triggered a save. -/
def smRunUpdates {α : Type} (states : List (Int × α))
    (ops : List (Int × α)) : List (Int × α) × Nat :=
  match ops with
  | [] => (states, 0)
  | (id, s) :: rest =>
      let r := smUpdateDeviceState states id s
      let f := smRunUpdates r.1 rest
      (f.1, (if r.2 then 1 else 0) + f.2)

/-! ## Device classifier (`hub.py`, `_guess_device_type` lines 399-424
and `_guess_if_dimmable` lines 426-442) -/

/-- The device-type strings the classifier can produce (`const.py`
`DEVICE_TYPE_LIGHT` and friends — all distinct string constants). -/
inductive DeviceType : Type where
  | light : DeviceType
  | dimmer : DeviceType
  | switch : DeviceType
  | cover : DeviceType
  | sensor : DeviceType
deriving DecidableEq

/-- `any(word in name_lower for word in kws)`. -/
def anyKw (nameLower : List Char) (kws : List String) : Bool :=
  kws.any (fun k => containsSub nameLower k.toList)

/-- `_guess_device_type` from `hub.py` lines 399-424: lower-case the
name, then run the cascading substring checks in source order (light
family, dimmer family, switch family, cover family, sensor family,
fan/speaker), and only if none hits fall back to the numeric
`type_map` on `device_value`, defaulting to switch. -/
def guessDeviceType (name : List Char) (deviceValue : Int) : DeviceType :=
  let nl := pyLowerAscii name
  if anyKw nl ["light", "bulb", "lamp", "spot", "led", "ambient"] then .light
  else if anyKw nl ["dimmer", "dim"] then .dimmer
  else if anyKw nl ["switch", "plug", "outlet"] then .switch
  else if anyKw nl ["blind", "curtain", "shutter", "shade"] then .cover
  else if anyKw nl ["sensor", "motion", "door", "window"] then .sensor
  else if anyKw nl ["fan", "speaker"] then .switch
  else if deviceValue == 1 then .switch
  else if deviceValue == 2 then .dimmer
  else if deviceValue == 3 then .light
  else if deviceValue == 4 then .cover
  else if deviceValue == 5 then .sensor
  else .switch

/-- The classifier the specification describes (transcribed from the
spec's rule table, *not* from the source): sensor family first, then
dimmer, light, cover and plug families, then the numeric table. -/
def guessDeviceTypeClaim (name : List Char) (deviceValue : Int) :
    DeviceType :=
  let nl := pyLowerAscii name
  if anyKw nl ["sensor", "motion", "detector", "pir"] then .sensor
  else if anyKw nl ["dimmer", "dim", "brightness"] then .dimmer
  else if anyKw nl ["lamp", "light", "bulb", "led"] then .light
  else if anyKw nl ["blind", "shutter", "curtain", "cover"] then .cover
  else if anyKw nl ["plug", "socket", "outlet", "switch"] then .switch
  else if deviceValue == 1 then .switch
  else if deviceValue == 2 then .dimmer
  else if deviceValue == 3 then .light
  else if deviceValue == 4 then .cover
  else if deviceValue == 5 then .sensor
  else .switch

/-- One row of an ordered keyword-rule table: keywords and the type
they select. -/
def typeRules : List (List String × DeviceType) :=
  [ (["light", "bulb", "lamp", "spot", "led", "ambient"], .light),
    (["dimmer", "dim"], .dimmer),
    (["switch", "plug", "outlet"], .switch),
    (["blind", "curtain", "shutter", "shade"], .cover),
    (["sensor", "motion", "door", "window"], .sensor),
    (["fan", "speaker"], .switch) ]

/-- Evaluate an ordered rule table top-to-bottom against a lower-cased
name (the spec's "ordered rule table evaluated top-to-bottom"),
producing the given fallback when no rule fires. -/
def evalRules (nl : List Char) (fallback : DeviceType) :
    List (List String × DeviceType) → DeviceType
  | [] => fallback
  | (kws, t) :: rest => if anyKw nl kws then t else evalRules nl fallback rest

/-- The numeric device-code table (`type_map` in the source), with its
switch default. -/
def numericTypeMap (deviceValue : Int) : DeviceType :=
  if deviceValue == 1 then .switch
  else if deviceValue == 2 then .dimmer
  else if deviceValue == 3 then .light
  else if deviceValue == 4 then .cover
  else if deviceValue == 5 then .sensor
  else .switch

/-- The amended classifier: the code's actual keyword families in the
code's actual order, expressed as an ordered rule table with the
numeric table as fallback. -/
def guessDeviceTypeAmended (name : List Char) (deviceValue : Int) :
    DeviceType :=
  evalRules (pyLowerAscii name) (numericTypeMap deviceValue) typeRules

/-- `_guess_if_dimmable` from `hub.py` lines 426-442. -/
def guessIfDimmable (name : List Char) (dtype : DeviceType) : Bool :=
  if dtype = DeviceType.dimmer then true
  else
    let nl := pyLowerAscii name
    if anyKw nl ["ambient", "bedroom", "living"] then true
    else if anyKw nl ["switch", "fan", "speaker", "floodlight", "sensor"] then
      false
    else if dtype = DeviceType.light then true
    else false

/-! ## Decoded module blobs and discovery-time state
(`hub.py`, `async_discover_devices` lines 254-312) -/

/-- One entry of a decoded `data.module.entities` list: only its
optional name matters to the claims. -/
structure EntityRec : Type where
  entityName : Option (List Char)
deriving DecidableEq

/-- The `module` object of a successfully decrypted `data` blob.
`name` is `module.get('name')` (`none` when the key is missing),
`entities` is `module.get('entities')` flattened to the entity names
(`[]` when missing — the source never reads it), `device` is
`module.get('device')`. -/
structure DataModule : Type where
  name : Option (List Char)
  entities : List EntityRec
  device : Option Int
deriving DecidableEq

/-- The `module` object of a successfully decrypted `status` blob:
`functions` is `module.get('functions')` (`none` when missing; the
source defaults it to `[]`). -/
structure StatusModule : Type where
  functions : Option (List Int)
deriving DecidableEq

/-- `status_module.get('functions', [])`. -/
def statusFunctions (sm : StatusModule) : List Int := sm.functions.getD []

/-- The initial on/off state computed at discovery (`hub.py` lines
280-293): default `False`; when the status blob decrypted to a module
whose `functions` list is non-empty, the state is `functions[0] == 1`.
The argument is `none` when the `status` field is absent/empty, fails
to decrypt, or decrypts without a `module` key. -/
def initialStateFromStatus (decodedStatus : Option StatusModule) : Bool :=
  match decodedStatus with
  | none => false
  | some sm =>
      match statusFunctions sm with
      | f :: _ => f == 1
      | [] => false

/-- The initial state the specification describes (transcribed from the
spec, *not* from the source): `functions[0] == 1` when available,
otherwise the parity of `version_status` (odd ⇒ on; an absent counter
is taken as 0, hence off). -/
def initialStateClaim (decodedStatus : Option StatusModule)
    (versionStatus : Option Int) : Bool :=
  match decodedStatus with
  | some sm =>
      match statusFunctions sm with
      | f :: _ => f == 1
      | [] => versionStatus.getD 0 % 2 == 1
  | none => versionStatus.getD 0 % 2 == 1

/-! ## Name extraction (`hub.py` lines 264-278) -/

/-- The literal fallback name `"Device <id>"`. -/
def deviceFallbackName (id : Int) : List Char :=
  "Device ".toList ++ intChars id

/-- Name extraction as `async_discover_devices` performs it (lines
264-278): take `data.module.name` when the data blob decrypted to a
module carrying a truthy (non-empty) name, otherwise the literal
`"Device <id>"`. -/
def extractName (dataModule : Option DataModule) (id : Int) : List Char :=
  match dataModule with
  | some m =>
      match m.name with
      | some n => if n.isEmpty then deviceFallbackName id else n
      | none => deviceFallbackName id
  | none => deviceFallbackName id

/-- The name candidates of one decoded module object in the
specification's order: its `name` field, else the first named entity of
its `entities` list, else its `device` field (rendered decimally). -/
def moduleNameCandidates (m : DataModule) : Option (List Char) :=
  (m.name).orElse (fun _ =>
    (m.entities.findSome? EntityRec.entityName).orElse (fun _ =>
      m.device.map intChars))

/-- Name extraction as the specification describes it (transcribed from
the spec, *not* from the source): the three checks against the decoded
`data` module, then the same three against the decoded `status` module,
then the fallback literal. -/
def extractNameSpec (dataModule statusModule : Option DataModule)
    (id : Int) : List Char :=
  match (dataModule.bind moduleNameCandidates).orElse (fun _ =>
      statusModule.bind moduleNameCandidates) with
  | some n => n
  | none => deviceFallbackName id

/-! ## Crypto/codec post-processing (`hub.py`, `_decrypt_kaku_data`
lines 94-149)

`_decrypt_kaku_data` base64-decodes the blob, AES-128-CBC-decrypts it
with the all-zero IV, and then runs a byte-level clean-up pipeline
before handing a text to `json.loads`.  The AES/base64 stage is a
bijective transport wrapper; every behaviour the claims talk about
lives in the clean-up pipeline, so the embedding takes the *decrypted
byte string* as input and produces the exact text passed to
`json.loads` (`none` when the code returns early because no JSON start
byte was found). -/

/-- The scan of lines 110-120: find the first `0x7B` (`{`) or `0x5B`
(`[`) byte and return the suffix of the plaintext from it
(`decrypted[json_start:]`), or `none` when no such byte exists. -/
def dropToBracket : List Nat → Option (List Nat)
  | [] => none
  | b :: rest =>
      if b == 123 || b == 91 then some (b :: rest) else dropToBracket rest

/-- Python `l[-p:]` for a non-negative `p` (note `l[-0:]` is the whole
list). -/
def pyTailSlice (l : List Nat) (p : Nat) : List Nat :=
  if p == 0 then l else l.drop (l.length - p)

/-- Python `l[:-p]` for a non-negative `p` (note `l[:-0]` is empty). -/
def pyDropTail (l : List Nat) (p : Nat) : List Nat :=
  if p == 0 then [] else l.take (l.length - p)

/-- The padding removal of lines 122-127: read the last byte as a
candidate pad length `p`; when `p < 16` and the last `p` bytes all
equal `p`, strip them, otherwise keep the data unchanged. -/
def pyUnpad (jsonBytes : List Nat) : List Nat :=
  match jsonBytes.getLast? with
  | none => jsonBytes
  | some p =>
      if p < 16 then
        (if (pyTailSlice jsonBytes p).all (fun x => x == p) then
          pyDropTail jsonBytes p
        else jsonBytes)
      else jsonBytes

/-- PKCS7 unpadding as the specification words it: strip exactly when
the candidate pad length `p` satisfies `1 ≤ p ≤ padMax` and the last
`p` bytes all equal `p`. -/
def specUnpad (padMax : Nat) (l : List Nat) : List Nat :=
  match l.getLast? with
  | some p =>
      if 1 ≤ p ∧ p ≤ padMax ∧ (pyTailSlice l p).all (fun x => x == p) = true
      then pyDropTail l p
      else l
  | none => l

/-- Emitted for one invalid-sequence event: U+FFFD under
`errors='replace'`, nothing under `errors='ignore'`. -/
def errOut (replaceMode : Bool) : List Char :=
  if replaceMode then [Char.ofNat 0xFFFD] else []

/-- A UTF-8 continuation byte. -/
def contOk (b : Nat) : Bool := 128 ≤ b && b ≤ 191

/-- The admissible first continuation byte after a three-byte lead
(CPython's range checks: `E0` needs `A0..BF`, `ED` needs `80..9F`). -/
def cont3Ok (lead c : Nat) : Bool :=
  if lead == 224 then 160 ≤ c && c ≤ 191
  else if lead == 237 then 128 ≤ c && c ≤ 159
  else contOk c

/-- The admissible first continuation byte after a four-byte lead
(`F0` needs `90..BF`, `F4` needs `80..8F`). -/
def cont4Ok (lead c : Nat) : Bool :=
  if lead == 240 then 144 ≤ c && c ≤ 191
  else if lead == 244 then 128 ≤ c && c ≤ 143
  else contOk c

/-- Python `bytes.decode('utf-8', errors=...)`: `replaceMode = false`
is `errors='ignore'` (the source's choice on line 129), `true` is
lossy replacement.  An ill-formed maximal subpart — a stray byte, an
invalid lead, or a lead whose required continuation is missing or out
of range — is one error event: the bytes consumed so far are dropped
(or replaced by one U+FFFD) and decoding resumes at the offending
byte. -/
def utf8Decode (replaceMode : Bool) (l : List Nat) : List Char :=
  match l with
  | [] => []
  | b :: rest =>
      if b < 128 then Char.ofNat b :: utf8Decode replaceMode rest
      else if b < 194 then errOut replaceMode ++ utf8Decode replaceMode rest
      else if b < 224 then
        match rest with
        | [] => errOut replaceMode
        | c :: rest2 =>
            if contOk c then
              Char.ofNat ((b - 192) * 64 + (c - 128)) ::
                utf8Decode replaceMode rest2
            else errOut replaceMode ++ utf8Decode replaceMode (c :: rest2)
      else if b < 240 then
        match rest with
        | [] => errOut replaceMode
        | c :: rest2 =>
            if cont3Ok b c then
              match rest2 with
              | [] => errOut replaceMode
              | d :: rest3 =>
                  if contOk d then
                    Char.ofNat
                        ((b - 224) * 4096 + (c - 128) * 64 + (d - 128)) ::
                      utf8Decode replaceMode rest3
                  else errOut replaceMode ++ utf8Decode replaceMode (d :: rest3)
            else errOut replaceMode ++ utf8Decode replaceMode (c :: rest2)
      else if b < 245 then
        match rest with
        | [] => errOut replaceMode
        | c :: rest2 =>
            if cont4Ok b c then
              match rest2 with
              | [] => errOut replaceMode
              | d :: rest3 =>
                  if contOk d then
                    match rest3 with
                    | [] => errOut replaceMode
                    | e :: rest4 =>
                        if contOk e then
                          Char.ofNat
                              ((b - 240) * 262144 + (c - 128) * 4096 +
                                (d - 128) * 64 + (e - 128)) ::
                            utf8Decode replaceMode rest4
                        else
                          errOut replaceMode ++
                            utf8Decode replaceMode (e :: rest4)
                  else errOut replaceMode ++ utf8Decode replaceMode (d :: rest3)
            else errOut replaceMode ++ utf8Decode replaceMode (c :: rest2)
      else errOut replaceMode ++ utf8Decode replaceMode rest

/-- The truncation scan of lines 131-141, generalised with a flag for
whether square brackets take part in the depth count: the source
(`trackSquare = false`) bumps the depth only on `0x7B`/`0x7D` braces;
the specification's wording (`trackSquare = true`) also tracks
`0x5B`/`0x5D`.  Returns Python's `json_end`: `i + 1` for the first
position `i` whose closing character brings the depth to zero, or 0
when that never happens. -/
def braceScan (trackSquare : Bool) (depth : Int) (i : Nat) :
    List Char → Nat
  | [] => 0
  | c :: rest =>
      if c == Char.ofNat 123 || (trackSquare && c == Char.ofNat 91) then
        braceScan trackSquare (depth + 1) (i + 1) rest
      else if c == Char.ofNat 125 || (trackSquare && c == Char.ofNat 93) then
        (if depth - 1 == 0 then i + 1
        else braceScan trackSquare (depth - 1) (i + 1) rest)
      else braceScan trackSquare depth (i + 1) rest

/-- The clean-up pipeline of `_decrypt_kaku_data` (lines 110-144),
exactly as the source performs it on the decrypted bytes: scan to the
first bracket, conditionally unpad, decode UTF-8 with
`errors='ignore'`, then truncate at the position where the `0x7B`/`0x7D`
depth returns to zero (when it does).  The result is the text handed to
`json.loads`, or `none` when no bracket was found (the code's early
`return None`). -/
def kakuExtractJsonText (decrypted : List Nat) : Option (List Char) :=
  match dropToBracket decrypted with
  | none => none
  | some jsonBytes =>
      let unpadded := pyUnpad jsonBytes
      let text := utf8Decode false unpadded
      let e := braceScan false 0 0 text
      some (if 0 < e then text.take e else text)

/-- The pipeline as the specification words it (transcribed from the
spec, *not* from the source): pad lengths 1-16 are stripped, invalid
UTF-8 is lossily replaced, and the truncation scan tracks both brace
and bracket depth. -/
def specExtractJsonText (decrypted : List Nat) : Option (List Char) :=
  match dropToBracket decrypted with
  | none => none
  | some jsonBytes =>
      let unpadded := specUnpad 16 jsonBytes
      let text := utf8Decode true unpadded
      let e := braceScan true 0 0 text
      some (if 0 < e then text.take e else text)

/-- The amended pipeline: like the specification's, but pad lengths
1-15 only, `errors='ignore'` decoding, and a truncation scan that
tracks only braces. -/
def amendedExtractJsonText (decrypted : List Nat) : Option (List Char) :=
  match dropToBracket decrypted with
  | none => none
  | some jsonBytes =>
      let unpadded := specUnpad 15 jsonBytes
      let text := utf8Decode false unpadded
      let e := braceScan false 0 0 text
      some (if 0 < e then text.take e else text)

/-! ## Hub registry: discovery and state-update steps
(`hub.py`, `async_discover_devices` lines 221-337 and
`async_update_states` lines 339-397) -/

/-- One entry of `self.devices`: the dictionary built at `hub.py` lines
300-312, plus the two slots the state-update path can add later
(`last_update`, `confidence`). -/
structure DeviceRec : Type where
  deviceId : Int
  deviceType : DeviceType
  deviceModel : List Char
  dimmable : Bool
  zigbee : Bool
  state : Bool
  brightness : Option Nat
  position : Option Int
  deviceValue : Int
  versionStatus : Option Int
  versionData : Option Int
  lastUpdate : Option Int
  confidence : Option Nat
deriving DecidableEq

/-- One element of the cloud sync response array, after JSON parsing
and blob decryption: `id` is `int(module_data.get('id', 0))`,
`dataModule`/`statusModule` are the decoded `module` objects of the
`data`/`status` blobs (`none` when the field is absent/empty, fails to
decrypt, or lacks a `module` key), and the version counters are the
raw `version_status`/`version_data` fields. -/
structure ModuleData : Type where
  id : Int
  dataModule : Option DataModule
  statusModule : Option StatusModule
  versionStatus : Option Int
  versionData : Option Int
deriving DecidableEq

/-- The mutable hub state the two sync paths touch: the device registry
`self.devices`, the raw-module cache `self._raw_modules`, and the
configured `self.entity_blacklist`. -/
structure HubState : Type where
  devices : List (Int × DeviceRec)
  rawModules : List (Int × ModuleData)
  blacklist : List Int
deriving DecidableEq

/-- The observable shapes of one cloud sync call: a non-200 HTTP
status, a body `json.loads` rejects, a JSON body that is not a list, or
the parsed list of module records. -/
inductive SyncResult : Type where
  | httpError (status : Nat) : SyncResult
  | parseError : SyncResult
  | notAList : SyncResult
  | modules (ms : List ModuleData) : SyncResult

/-- The per-module body of the discovery loop (`hub.py` lines 254-312):
skip ids that are non-positive or blacklisted; otherwise cache the raw
module, extract the name, the device-class value (`module.get('device',
1)`, default 1 when the data blob is unusable), the initial state from
the status blob, classify, and store the assembled device record under
the module id. -/
def processModule (st : HubState) (m : ModuleData) : HubState :=
  if m.id ≤ 0 ∨ m.id ∈ st.blacklist then st
  else
    let name := extractName m.dataModule m.id
    let deviceValue :=
      match m.dataModule with
      | some dm => dm.device.getD 1
      | none => 1
    let currentState := initialStateFromStatus m.statusModule
    let dtype := guessDeviceType name deviceValue
    let dimmable := guessIfDimmable name dtype
    { st with
      rawModules := insertOrReplace st.rawModules m.id m,
      devices := insertOrReplace st.devices m.id
        { deviceId := m.id
          deviceType := dtype
          deviceModel := name
          dimmable := dimmable
          zigbee := false
          state := currentState
          brightness := if dimmable then some 50 else none
          position := none
          deviceValue := deviceValue
          versionStatus := m.versionStatus
          versionData := m.versionData
          lastUpdate := none
          confidence := none } }

/-- `async_discover_devices` as a state transformer on the registry: a
non-200 response, a JSON parse failure, or a non-list body leaves the
state untouched (the code has no handler for them beyond logging); a
list is folded module by module. -/
def discoverStep (st : HubState) (r : SyncResult) : HubState :=
  match r with
  | .modules ms => ms.foldl processModule st
  | _ => st

/-- The refresh `async_update_states` applies to one already-registered
device record (`hub.py` lines 370-394): when the status blob decodes to
a non-empty `functions` list whose head disagrees with the stored
state, the state is overwritten together with `last_update := now` and
confidence 100; the version counters are always refreshed. -/
def refreshedDevice (now : Int) (m : ModuleData) (dev : DeviceRec) :
    DeviceRec :=
  let dev1 :=
    match m.statusModule with
    | some sm =>
        match statusFunctions sm with
        | f :: _ =>
            let newState := f == 1
            if newState ≠ dev.state then
              { dev with
                state := newState
                lastUpdate := some now
                confidence := some 100 }
            else dev
        | [] => dev
    | none => dev
  { dev1 with versionStatus := m.versionStatus,
              versionData := m.versionData }

/-- The per-module body of the state-update loop (`hub.py` lines
365-394): only ids already in the registry are touched; the raw module
is re-cached and the stored record refreshed. -/
def updateModule (now : Int) (st : HubState) (m : ModuleData) : HubState :=
  match alLookup st.devices m.id with
  | none => st
  | some dev =>
      { st with
        rawModules := insertOrReplace st.rawModules m.id m,
        devices := insertOrReplace st.devices m.id
          (refreshedDevice now m dev) }

/-- `async_update_states` as a state transformer, analogous to
`discoverStep`. -/
def updateStep (now : Int) (st : HubState) (r : SyncResult) : HubState :=
  match r with
  | .modules ms => ms.foldl (updateModule now) st
  | _ => st

/-- One registry-touching call the outside world can make. -/
inductive HubOp : Type where
  | discover (r : SyncResult) : HubOp
  | refresh (now : Int) (r : SyncResult) : HubOp

/-- Apply one hub operation. -/
def applyOp (st : HubState) : HubOp → HubState
  | .discover r => discoverStep st r
  | .refresh now r => updateStep now st r

/-- Run a sequence of hub operations. -/
def runOps (st : HubState) : List HubOp → HubState
  | [] => st
  | op :: rest => runOps (applyOp st op) rest

/-- The registry invariant of claim C10, as an executable check: every
key is positive, not blacklisted, and its record's stored device id
equals the key. -/
def checkState (st : HubState) : Bool :=
  st.devices.all (fun p =>
    decide (0 < p.1 ∧ p.1 ∉ st.blacklist ∧ p.2.deviceId = p.1))


/-! ## Association-list lemmas -/

theorem alLookup_insertOrReplace_ne {α : Type} (l : List (Int × α))
    (k k2 : Int) (v : α) (h : k2 ≠ k) :
    alLookup (insertOrReplace l k2 v) k = alLookup l k := by
  have hbeq : (k2 == k) = false := beq_eq_false_iff_ne.mpr h
  induction l with
  | nil => simp [insertOrReplace, alLookup, hbeq]
  | cons q rest ih =>
      obtain ⟨k1, v1⟩ := q
      by_cases hk : (k1 == k2) = true
      · have hk1 : k1 = k2 := by simpa [beq_iff_eq] using hk
        subst hk1
        simp [insertOrReplace, alLookup, hbeq]
      · simp only [insertOrReplace, hk, Bool.false_eq_true, if_false]
        simp only [alLookup, ih]

theorem mem_insertOrReplace {α : Type} (l : List (Int × α)) (k : Int)
    (v : α) (p : Int × α) (hp : p ∈ insertOrReplace l k v) :
    p = (k, v) ∨ p ∈ l := by
  induction l with
  | nil =>
      simp only [insertOrReplace, List.mem_singleton] at hp
      exact Or.inl hp
  | cons q rest ih =>
      obtain ⟨k1, v1⟩ := q
      simp only [insertOrReplace] at hp
      by_cases hk : (k1 == k) = true
      · rw [if_pos hk] at hp
        rcases List.mem_cons.mp hp with h | h
        · exact Or.inl h
        · exact Or.inr (List.mem_cons.mpr (Or.inr h))
      · rw [if_neg hk] at hp
        rcases List.mem_cons.mp hp with h | h
        · exact Or.inr (List.mem_cons.mpr (Or.inl h))
        · rcases ih h with h2 | h2
          · exact Or.inl h2
          · exact Or.inr (List.mem_cons.mpr (Or.inr h2))

theorem alLookup_mem {α : Type} (l : List (Int × α)) (k : Int) (v : α)
    (h : alLookup l k = some v) : (k, v) ∈ l := by
  induction l with
  | nil => simp [alLookup] at h
  | cons q rest ih =>
      obtain ⟨k1, v1⟩ := q
      simp only [alLookup] at h
      by_cases hk : (k1 == k) = true
      · rw [if_pos hk] at h
        have hk1 : k1 = k := by simpa [beq_iff_eq] using hk
        injection h with hv
        subst hk1; subst hv
        exact List.mem_cons_self _ _
      · rw [if_neg hk] at h
        exact List.mem_cons.mpr (Or.inr (ih h))

/-! ## Registry-invariant lemmas (claims C6 and C10) -/

/-- The registry invariant of claim C10, in propositional form. -/
def GoodState (st : HubState) : Prop :=
  ∀ p ∈ st.devices, 0 < p.1 ∧ p.1 ∉ st.blacklist ∧ p.2.deviceId = p.1

theorem checkState_iff (st : HubState) :
    checkState st = true ↔ GoodState st := by
  simp [checkState, GoodState, List.all_eq_true, decide_eq_true_eq]

theorem refreshedDevice_id (now : Int) (m : ModuleData) (dev : DeviceRec) :
    (refreshedDevice now m dev).deviceId = dev.deviceId := by
  cases hsm : m.statusModule with
  | none => simp [refreshedDevice, hsm]
  | some sm =>
      cases hf : statusFunctions sm with
      | nil => simp [refreshedDevice, hsm, hf]
      | cons f fs =>
          simp only [refreshedDevice, hsm, hf]
          split <;> rfl

theorem processModule_good {st : HubState} (m : ModuleData)
    (h : GoodState st) : GoodState (processModule st m) := by
  unfold processModule
  split
  · exact h
  · rename_i hguard
    push_neg at hguard
    intro p hp
    rcases mem_insertOrReplace _ _ _ _ hp with rfl | hmem
    · exact ⟨hguard.1, hguard.2, rfl⟩
    · exact h p hmem

theorem updateModule_good {st : HubState} (now : Int) (m : ModuleData)
    (h : GoodState st) : GoodState (updateModule now st m) := by
  unfold updateModule
  cases hlk : alLookup st.devices m.id with
  | none => exact h
  | some dev =>
      have hdev := h (m.id, dev) (alLookup_mem _ _ _ hlk)
      intro p hp
      rcases mem_insertOrReplace _ _ _ _ hp with rfl | hmem
      · exact ⟨hdev.1, hdev.2.1, by
          simpa [refreshedDevice_id] using hdev.2.2⟩
      · exact h p hmem

theorem foldl_processModule_good :
    ∀ (ms : List ModuleData) (st : HubState), GoodState st →
      GoodState (ms.foldl processModule st) := by
  intro ms
  induction ms with
  | nil => intro st h; exact h
  | cons m rest ih =>
      intro st h
      exact ih _ (processModule_good m h)

theorem foldl_updateModule_good (now : Int) :
    ∀ (ms : List ModuleData) (st : HubState), GoodState st →
      GoodState (ms.foldl (updateModule now) st) := by
  intro ms
  induction ms with
  | nil => intro st h; exact h
  | cons m rest ih =>
      intro st h
      exact ih _ (updateModule_good now m h)

theorem applyOp_good {st : HubState} (op : HubOp) (h : GoodState st) :
    GoodState (applyOp st op) := by
  cases op with
  | discover r =>
      cases r with
      | modules ms => exact foldl_processModule_good ms st h
      | httpError s => exact h
      | parseError => exact h
      | notAList => exact h
  | refresh now r =>
      cases r with
      | modules ms => exact foldl_updateModule_good now ms st h
      | httpError s => exact h
      | parseError => exact h
      | notAList => exact h

theorem runOps_good :
    ∀ (ops : List HubOp) (st : HubState), GoodState st →
      GoodState (runOps st ops) := by
  intro ops
  induction ops with
  | nil => intro st h; exact h
  | cons op rest ih =>
      intro st h
      exact ih _ (applyOp_good op h)

theorem lookup_processModule_ne (st : HubState) (m : ModuleData) (k : Int)
    (h : m.id ≠ k) :
    alLookup (processModule st m).devices k = alLookup st.devices k := by
  unfold processModule
  split
  · rfl
  · exact alLookup_insertOrReplace_ne _ _ _ _ h

theorem lookup_updateModule_ne (now : Int) (st : HubState)
    (m : ModuleData) (k : Int) (h : m.id ≠ k) :
    alLookup (updateModule now st m).devices k = alLookup st.devices k := by
  unfold updateModule
  cases alLookup st.devices m.id with
  | none => rfl
  | some dev => exact alLookup_insertOrReplace_ne _ _ _ _ h

theorem lookup_foldl_processModule_ne :
    ∀ (ms : List ModuleData) (st : HubState) (k : Int),
      (∀ m ∈ ms, m.id ≠ k) →
      alLookup (ms.foldl processModule st).devices k =
        alLookup st.devices k := by
  intro ms
  induction ms with
  | nil => intro st k _; rfl
  | cons m rest ih =>
      intro st k h
      rw [List.foldl_cons, ih _ k (fun m2 hm => h m2 (List.mem_cons_of_mem _ hm)),
        lookup_processModule_ne st m k (h m (List.mem_cons_self _ _))]

theorem lookup_foldl_updateModule_ne (now : Int) :
    ∀ (ms : List ModuleData) (st : HubState) (k : Int),
      (∀ m ∈ ms, m.id ≠ k) →
      alLookup (ms.foldl (updateModule now) st).devices k =
        alLookup st.devices k := by
  intro ms
  induction ms with
  | nil => intro st k _; rfl
  | cons m rest ih =>
      intro st k h
      rw [List.foldl_cons, ih _ k (fun m2 hm => h m2 (List.mem_cons_of_mem _ hm)),
        lookup_updateModule_ne now st m k (h m (List.mem_cons_self _ _))]

/-! ## Codec lemmas (claim C1) -/

theorem dropToBracket_shape :
    ∀ (l s : List Nat), dropToBracket l = some s →
      ∃ b t, s = b :: t ∧ (b == 123 || b == 91) = true := by
  intro l
  induction l with
  | nil => intro s h; simp [dropToBracket] at h
  | cons b rest ih =>
      intro s h
      simp only [dropToBracket] at h
      by_cases hb : (b == 123 || b == 91) = true
      · rw [if_pos hb] at h
        injection h with h
        exact ⟨b, rest, h.symm, hb⟩
      · rw [if_neg hb] at h
        exact ih s h

theorem all_zero_false_of_bracket (b : Nat) (t : List Nat)
    (hb : (b == 123 || b == 91) = true) :
    ((b :: t).all fun x => x == 0) = false := by
  have : b = 123 ∨ b = 91 := by simpa [beq_iff_eq] using hb
  rcases this with rfl | rfl <;> simp [List.all_cons]

theorem pyUnpad_eq_specUnpad15 (b : Nat) (t : List Nat)
    (hb : (b == 123 || b == 91) = true) :
    pyUnpad (b :: t) = specUnpad 15 (b :: t) := by
  unfold pyUnpad specUnpad
  cases hlast : (b :: t).getLast? with
  | none => rfl
  | some p =>
      dsimp only
      cases p with
      | zero =>
          have hall : ((pyTailSlice (b :: t) 0).all fun x => x == 0) = false := by
            simpa [pyTailSlice] using all_zero_false_of_bracket b t hb
          simp [hall]
      | succ n =>
          by_cases hlt : n + 1 < 16
          · by_cases hall :
                ((pyTailSlice (b :: t) (n + 1)).all fun x => x == n + 1) = true
            · rw [if_pos hlt, if_pos hall, if_pos ⟨by omega, by omega, hall⟩]
            · rw [if_pos hlt, if_neg hall, if_neg]
              intro hc
              exact hall hc.2.2
          · rw [if_neg hlt, if_neg]
            intro hc
            omega

/-- C1: the natural-language claim describes the decrypt pipeline as
stripping pads of length 1-16, decoding UTF-8 with lossy replacement,
and truncating where the combined brace *and bracket* depth returns to
zero; the source strips pads of length at most 15, decodes with
`errors='ignore'`, and tracks only braces.  On the plaintext `[1]x` the
source pipeline keeps the trailing garbage (handing `[1]x` to the JSON
parser, which then fails), while the claimed pipeline truncates to the
parseable `[1]`. -/
theorem klik_c1_counterexample :
    kakuExtractJsonText [91, 49, 93, 120] = some "[1]x".toList ∧
    specExtractJsonText [91, 49, 93, 120] = some "[1]".toList ∧
    kakuExtractJsonText [91, 49, 93, 120] ≠
      specExtractJsonText [91, 49, 93, 120] := by
  refine ⟨by decide, by decide, by decide⟩

/-- C1 (amended): for every decrypted plaintext, the text the source
hands to the JSON parser (or its `none` early return when no opening
brace/bracket byte exists) is exactly the amended pipeline: scan to the
first `0x7B`/`0x5B` byte, strip a PKCS7 pad of length `p` with
1 ≤ p ≤ 15 exactly when the last `p` bytes all equal `p`, decode as
UTF-8 *dropping* invalid bytes, and truncate at the position where the
brace depth (braces only — brackets are not tracked) returns to
zero, keeping the whole text when it never does. -/
theorem klik_c1_theorem :
    ∀ d : List Nat, kakuExtractJsonText d = amendedExtractJsonText d := by
  intro d
  cases h : dropToBracket d with
  | none => simp [kakuExtractJsonText, amendedExtractJsonText, h]
  | some s =>
      obtain ⟨b, t, rfl, hb⟩ := dropToBracket_shape d s h
      simp only [kakuExtractJsonText, amendedExtractJsonText, h]
      rw [pyUnpad_eq_specUnpad15 b t hb]

/-! ## Classifier theorems (claim C2) -/

/-- C2: the claim puts the sensor-family keywords first, so a name
containing both a sensor keyword and a light keyword would classify as
Sensor; the source checks the light family first and returns Light for
`"Motion Light"`. -/
theorem klik_c2_counterexample :
    guessDeviceType "Motion Light".toList 1 = DeviceType.light ∧
    guessDeviceTypeClaim "Motion Light".toList 1 = DeviceType.sensor ∧
    guessDeviceType "Motion Light".toList 1 ≠
      guessDeviceTypeClaim "Motion Light".toList 1 := by
  refine ⟨by decide, by decide, by decide⟩

/-- C2 (amended): the classifier is an ordered keyword-rule table
evaluated top-to-bottom, but with the source's families and order —
light/bulb/lamp/spot/led/ambient to Light first, then dimmer/dim to
Dimmer, switch/plug/outlet to Switch, blind/curtain/shutter/shade to
Cover, sensor/motion/door/window to Sensor, fan/speaker to Switch —
falling back to the numeric device-code table only when no keyword
matched, defaulting to Switch.  In particular a name with both a
sensor-family and a light-family keyword classifies as Light. -/
theorem klik_c2_theorem :
    ∀ (name : List Char) (deviceValue : Int),
      guessDeviceType name deviceValue =
        guessDeviceTypeAmended name deviceValue :=
  fun _ _ => rfl

/-! ## Initial-state theorems (claim C3) -/

/-- C3: the claim says a module whose status blob is absent or fails to
decrypt falls back to the parity of `version_status` (odd meaning on);
the source's fallback is simply off.  A module with no decodable status
and `version_status = 1` is off in the source but on under the claim. -/
theorem klik_c3_counterexample :
    initialStateFromStatus none = false ∧
    initialStateClaim none (some 1) = true ∧
    initialStateFromStatus none ≠ initialStateClaim none (some 1) := by
  refine ⟨by decide, by decide, by decide⟩

/-- C3 (amended): when the decoded `status.module.functions` list is
present and non-empty, the initial state is `functions[0] == 1`; in
every other case — status blob absent or undecryptable, `functions`
missing, or `functions` empty — the initial state is plain off, with no
`version_status` parity heuristic and no low-confidence flag. -/
theorem klik_c3_theorem :
    (∀ (f : Int) (fs : List Int),
        initialStateFromStatus (some ⟨some (f :: fs)⟩) = (f == 1)) ∧
    initialStateFromStatus none = false ∧
    initialStateFromStatus (some ⟨none⟩) = false ∧
    initialStateFromStatus (some ⟨some []⟩) = false :=
  ⟨fun _ _ => rfl, rfl, rfl, rfl⟩

/-! ## Command-packet theorem (claim C4) -/

theorem commandCode_lt (command : String) : commandCode command < 256 := by
  unfold commandCode
  split_ifs <;> omega

/-- C4: for a six-byte MAC and any device id, command and value, the
built packet is twelve bytes: the fixed header `AA AA`, the MAC, a
device-id byte (`id mod 256` when `id > 255`, else `id`), the command
code (on=1, off=0, dim=2), the value byte, and a trailing checksum
equal to the sum of all preceding bytes mod 256; every byte is below
256. -/
theorem klik_c4_theorem :
    ∀ (mac : List Nat) (id : Nat) (cmd : String) (v : Nat),
      mac.length = 6 → mac.all (fun b => b < 256) = true →
      (buildCommandPacket mac id cmd v).length = 12 ∧
      (buildCommandPacket mac id cmd v).take 2 = [170, 170] ∧
      ((buildCommandPacket mac id cmd v).drop 2).take 6 = mac ∧
      (buildCommandPacket mac id cmd v)[8]? =
        some (if 255 < id then id % 256 else id) ∧
      (cmd = "on" → (buildCommandPacket mac id cmd v)[9]? = some 1) ∧
      (cmd = "off" → (buildCommandPacket mac id cmd v)[9]? = some 0) ∧
      (cmd = "dim" → (buildCommandPacket mac id cmd v)[9]? = some 2) ∧
      (buildCommandPacket mac id cmd v)[10]? = some (v % 256) ∧
      (buildCommandPacket mac id cmd v)[11]? =
        some (((buildCommandPacket mac id cmd v).dropLast).sum % 256) ∧
      (buildCommandPacket mac id cmd v).all (fun b => b < 256) = true := by
  intro mac id cmd v hlen hbytes
  match mac, hlen with
  | [m0, m1, m2, m3, m4, m5], _ =>
    simp only [List.all_cons, List.all_nil, Bool.and_eq_true,
      decide_eq_true_eq, and_true] at hbytes
    obtain ⟨h0, h1, h2, h3, h4, h5⟩ := hbytes
    refine ⟨rfl, rfl, rfl, rfl, ?_, ?_, ?_, rfl, rfl, ?_⟩
    · intro hc; subst hc; rfl
    · intro hc; subst hc; rfl
    · intro hc; subst hc; rfl
    · simp only [buildCommandPacket, List.cons_append, List.nil_append,
        List.all_cons, List.all_nil, Bool.and_eq_true, decide_eq_true_eq,
        and_true]
      refine ⟨by omega, by omega, h0, h1, h2, h3, h4, h5, ?_, ?_, ?_, ?_⟩
      · split <;> omega
      · exact commandCode_lt cmd
      · omega
      · omega

/-- Witness for C4: a concrete six-byte MAC and the claim's own example
id 26087308 (whose device-id byte is 26087308 mod 256 = 140). -/
theorem klik_c4_witness :
    ([16, 32, 48, 64, 80, 96] : List Nat).length = 6 ∧
    ([16, 32, 48, 64, 80, 96] : List Nat).all (fun b => b < 256) = true ∧
    (26087308 : Nat) % 256 = 140 ∧
    (buildCommandPacket [16, 32, 48, 64, 80, 96] 26087308 "dim" 200)[8]? =
      some (if 255 < 26087308 then 26087308 % 256 else 26087308) ∧
    (buildCommandPacket [16, 32, 48, 64, 80, 96] 26087308 "dim" 200)[11]? =
      some (((buildCommandPacket
        [16, 32, 48, 64, 80, 96] 26087308 "dim" 200).dropLast).sum % 256) :=
  ⟨by decide, by decide, by decide,
    (klik_c4_theorem [16, 32, 48, 64, 80, 96] 26087308 "dim" 200
      (by decide) (by decide)).2.2.2.1,
    (klik_c4_theorem [16, 32, 48, 64, 80, 96] 26087308 "dim" 200
      (by decide) (by decide)).2.2.2.2.2.2.2.2.1⟩

/-! ## Confidence theorems (claim C5) -/

/-- C5: every read of a stored state recomputes its confidence from the
stored `last_update` timestamp — ages under one minute give 100, under
five minutes 80, under one hour 60, anything older (or an absent or
unparseable timestamp) 40; the confidence is non-increasing in the age,
and the value a read returns is independent of whatever confidence was
stored.  Ages are in microseconds. -/
theorem klik_c5_theorem :
    (∀ now t : Int, now - t < 60000000 →
        confidenceFromAge (now - t) = 100) ∧
    (∀ now t : Int, 60000000 ≤ now - t → now - t < 300000000 →
        confidenceFromAge (now - t) = 80) ∧
    (∀ now t : Int, 300000000 ≤ now - t → now - t < 3600000000 →
        confidenceFromAge (now - t) = 60) ∧
    (∀ now t : Int, 3600000000 ≤ now - t →
        confidenceFromAge (now - t) = 40) ∧
    (∀ now : Int, updateConfidence none now = 40 ∧
        updateConfidence (some none) now = 40) ∧
    (∀ a b : Int, a ≤ b → confidenceFromAge b ≤ confidenceFromAge a) ∧
    (∀ (states : List (Int × StoredState)) (id now : Int) (s : StoredState),
        getDeviceState states id now = some s →
        s.confidence = updateConfidence s.lastUpdate now) ∧
    (∀ (s : StoredState) (c : Nat) (states : List (Int × StoredState))
        (id now : Int),
        getDeviceState ((id, { s with confidence := c }) :: states) id now =
          getDeviceState ((id, s) :: states) id now) := by
  refine ⟨?_, ?_, ?_, ?_, ?_, ?_, ?_, ?_⟩
  · intro now t h; simp only [confidenceFromAge]; split_ifs
    all_goals omega
  · intro now t h1 h2; simp only [confidenceFromAge]; split_ifs
    all_goals omega
  · intro now t h1 h2; simp only [confidenceFromAge]; split_ifs
    all_goals omega
  · intro now t h; simp only [confidenceFromAge]; split_ifs
    all_goals omega
  · intro now; exact ⟨rfl, rfl⟩
  · intro a b h; simp only [confidenceFromAge]; split_ifs <;> omega
  · intro states id now s h
    unfold getDeviceState at h
    cases hlk : alLookup states id with
    | none => rw [hlk] at h; exact absurd h (by simp)
    | some s0 =>
        rw [hlk] at h
        injection h with h
        subst h
        rfl
  · intro s c states id now
    simp [getDeviceState, alLookup]

/-- Witness for C5: the monotonicity conjunct applied to the concrete
ages 0 and one hour. -/
theorem klik_c5_witness :
    (0 : Int) ≤ 3600000000 ∧
    confidenceFromAge 3600000000 ≤ confidenceFromAge 0 :=
  ⟨by decide, klik_c5_theorem.2.2.2.2.2.1 0 3600000000 (by decide)⟩

/-! ## Sync error-handling theorem (claim C6) -/

/-- C6: a sync whose HTTP status is not 200, whose body fails JSON
parsing, or whose body is not a list (or is the empty list) leaves the
hub state — in particular the device registry — exactly as it was, for
both the discovery and the state-update paths; and a sync that does
return modules never touches a registry key that none of the returned
modules carries, so a successful sync only replaces the entries of the
modules it found and never clears the registry. -/
theorem klik_c6_theorem :
    (∀ (st : HubState) (s : Nat),
        discoverStep st (SyncResult.httpError s) = st) ∧
    (∀ st : HubState, discoverStep st SyncResult.parseError = st) ∧
    (∀ st : HubState, discoverStep st SyncResult.notAList = st) ∧
    (∀ st : HubState, discoverStep st (SyncResult.modules []) = st) ∧
    (∀ (now : Int) (st : HubState) (s : Nat),
        updateStep now st (SyncResult.httpError s) = st) ∧
    (∀ (now : Int) (st : HubState),
        updateStep now st SyncResult.parseError = st) ∧
    (∀ (now : Int) (st : HubState),
        updateStep now st SyncResult.notAList = st) ∧
    (∀ (now : Int) (st : HubState),
        updateStep now st (SyncResult.modules []) = st) ∧
    (∀ (st : HubState) (ms : List ModuleData) (k : Int),
        (∀ m ∈ ms, m.id ≠ k) →
        alLookup (discoverStep st (SyncResult.modules ms)).devices k =
          alLookup st.devices k) ∧
    (∀ (now : Int) (st : HubState) (ms : List ModuleData) (k : Int),
        (∀ m ∈ ms, m.id ≠ k) →
        alLookup (updateStep now st (SyncResult.modules ms)).devices k =
          alLookup st.devices k) :=
  ⟨fun _ _ => rfl, fun _ => rfl, fun _ => rfl, fun _ => rfl,
    fun _ _ _ => rfl, fun _ _ => rfl, fun _ _ => rfl, fun _ _ => rfl,
    fun st ms k h => lookup_foldl_processModule_ne ms st k h,
    fun now st ms k h => lookup_foldl_updateModule_ne now ms st k h⟩

/-- Witness for C6: a registry holding device 5 is untouched by a sync
that returns only a module with id 7. -/
theorem klik_c6_witness :
    (∀ m ∈ [(⟨7, none, none, none, none⟩ : ModuleData)], m.id ≠ (5 : Int)) ∧
    alLookup (discoverStep
        ⟨[((5 : Int),
            ⟨5, DeviceType.switch, [], false, false, false, none, none, 1,
              none, none, none, none⟩)], [], []⟩
        (SyncResult.modules [⟨7, none, none, none, none⟩])).devices 5 =
      alLookup
        [((5 : Int),
          (⟨5, DeviceType.switch, [], false, false, false, none, none, 1,
            none, none, none, none⟩ : DeviceRec))] 5 :=
  ⟨by decide,
    klik_c6_theorem.2.2.2.2.2.2.2.2.1
      ⟨[(5, ⟨5, DeviceType.switch, [], false, false, false, none, none, 1,
          none, none, none, none⟩)], [], []⟩
      [⟨7, none, none, none, none⟩] 5 (by decide)⟩

/-! ## Brightness theorems (claim C7) -/

/-- C7: the claim says the dim value for brightness 50 is
`round(50 · 255 / 100) = 128`; the source computes
`int((50 / 100) * 255) = 127` — truncation, not rounding. -/
theorem klik_c7_counterexample :
    setBrightnessAction true 50 = BrightnessAction.dimCmd 127 ∧
    round ((50 * 255 : ℚ) / 100) = 128 ∧
    setBrightnessAction true 50 ≠
      BrightnessAction.dimCmd ((round ((50 * 255 : ℚ) / 100)).toNat) := by
  have h2 : round ((50 * 255 : ℚ) / 100) = 128 := by
    rw [round_eq]
    have h3 : ((50 * 255 : ℚ) / 100 + 1 / 2) = ((128 : Int) : ℚ) := by
      norm_num
    rw [h3, Int.floor_intCast]
  refine ⟨by decide, h2, ?_⟩
  rw [h2]
  decide

/-- C7 (amended): for every device marked dimmable and brightness
0-100, the dim command's value is the *floor* of brightness · 255 / 100
(the source truncates the float product); a non-dimmable device
degrades to plain turn-on when brightness > 0 and turn-off when it is
0. -/
theorem klik_c7_theorem :
    ∀ b : Nat, b ≤ 100 →
      setBrightnessAction true b = BrightnessAction.dimCmd (b * 255 / 100) ∧
      setBrightnessAction false b =
        (if 0 < b then BrightnessAction.powerOn
        else BrightnessAction.powerOff) :=
  fun _ _ => ⟨rfl, rfl⟩

/-- Witness for C7: brightness 50 on a dimmable device dims with value
127, and on a non-dimmable one degrades to turn-on. -/
theorem klik_c7_witness :
    (50 : Nat) ≤ 100 ∧
    setBrightnessAction true 50 = BrightnessAction.dimCmd (50 * 255 / 100) ∧
    setBrightnessAction false 50 =
      (if 0 < (50 : Nat) then BrightnessAction.powerOn
      else BrightnessAction.powerOff) :=
  ⟨by decide, (klik_c7_theorem 50 (by decide)).1, (klik_c7_theorem 50 (by decide)).2⟩

/-! ## Persistence-throttle theorem (claim C8) -/

/-- C8: the claim (and the source's own comment, "Save every 10
updates") promise a persisted save at least once in any run of ten
consecutive state updates; but the source's trigger is
`len(self._states) % 10 == 0` — the *size* of the map, not a mutation
count — so with seven devices registered, ten consecutive updates to
device 1 keep the size at seven and never save. -/
theorem klik_c8_theorem :
    (smRunUpdates
      ([(1, true), (2, true), (3, true), (4, true), (5, true), (6, true),
        (7, true)] : List (Int × Bool))
      (List.replicate 10 (1, false))).2 = 0 ∧
    (smRunUpdates
      ([(1, true), (2, true), (3, true), (4, true), (5, true), (6, true),
        (7, true)] : List (Int × Bool))
      (List.replicate 10 (1, false))).1.length = 7 := by
  refine ⟨by decide, by decide⟩

/-! ## Name-extraction theorems (claim C9) -/

/-- C9: the claim's precedence consults `data.module.entities` before
giving up on a name; the source never reads the entity list, so a
module whose decoded data carries no `name` but a named entity gets the
fallback literal from the source while the claimed extraction returns
the entity's name. -/
theorem klik_c9_counterexample :
    extractName (some ⟨none, [⟨some "Kitchen Sensor".toList⟩], none⟩) 42 =
      "Device 42".toList ∧
    extractNameSpec (some ⟨none, [⟨some "Kitchen Sensor".toList⟩], none⟩)
      none 42 = "Kitchen Sensor".toList ∧
    extractName (some ⟨none, [⟨some "Kitchen Sensor".toList⟩], none⟩) 42 ≠
      extractNameSpec (some ⟨none, [⟨some "Kitchen Sensor".toList⟩], none⟩)
        none 42 := by
  refine ⟨by decide, by decide, by decide⟩

/-- C9 (amended): the extracted name is `data.module.name` when that
field is present and non-empty and the literal `"Device <id>"` in every
other case — the entity list, the `device` field and the status blob
are never consulted; the extraction still always returns a non-empty
name, even when both blobs fail to decrypt. -/
theorem klik_c9_theorem :
    (∀ (m : DataModule) (id : Int) (n : List Char),
        m.name = some n → n ≠ [] → extractName (some m) id = n) ∧
    (∀ (m : DataModule) (id : Int), m.name = none →
        extractName (some m) id = deviceFallbackName id) ∧
    (∀ id : Int, extractName none id = deviceFallbackName id) ∧
    (∀ (dm : Option DataModule) (id : Int), extractName dm id ≠ []) := by
  have hfb : ∀ id : Int, deviceFallbackName id ≠ [] := fun id h =>
    List.noConfusion h
  refine ⟨?_, ?_, ?_, ?_⟩
  · intro m id n hn hne
    cases n with
    | nil => exact absurd rfl hne
    | cons c cs => simp [extractName, hn]
  · intro m id hn
    simp [extractName, hn]
  · intro id; rfl
  · intro dm id
    cases dm with
    | none => simpa [extractName] using hfb id
    | some m =>
        cases hn : m.name with
        | none => simpa [extractName, hn] using hfb id
        | some n =>
            cases n with
            | nil => simpa [extractName, hn] using hfb id
            | cons c cs => simp [extractName, hn]

/-- Witness for C9: a module whose decoded data names it `"Lamp"`. -/
theorem klik_c9_witness :
    ((⟨some "Lamp".toList, [], none⟩ : DataModule).name =
      some "Lamp".toList) ∧
    "Lamp".toList ≠ [] ∧
    extractName (some ⟨some "Lamp".toList, [], none⟩) 3 = "Lamp".toList :=
  ⟨rfl, by decide,
    klik_c9_theorem.1 ⟨some "Lamp".toList, [], none⟩ 3 "Lamp".toList rfl
      (by decide)⟩

/-! ## Registry-invariant theorem (claim C10) -/

/-- C10: starting from an empty registry, after any sequence of
discovery and state-update calls every registry key is positive and not
blacklisted, and the stored record's device id equals its key —
sync-response modules with non-positive or blacklisted ids are skipped
and never create or modify an entry. -/
theorem klik_c10_theorem :
    ∀ (bl : List Int) (ops : List HubOp),
      checkState (runOps ⟨[], [], bl⟩ ops) = true := by
  intro bl ops
  rw [checkState_iff]
  apply runOps_good
  intro p hp
  simp at hp
